import Mathlib

/-!
Verification of the SpaceMerc grid-world/combat core (space_merc.c, plus the
second program variant embedded in space_merc.h) against its specification.

The C sources are shallowly embedded: machine integers become Int (all game
values stay far below the int16/int32 ranges exercised by the code, except
where a theorem says otherwise), the global player/mission singletons become
an explicit GameState record, the rand() stream becomes an explicit Rng
argument, and the two possibly non-terminating loops (the NPC spawn search's
do-while and the dungeon builder's random walk) take a fuel argument and
return none when the fuel runs out.
-/

namespace SpaceMerc

/-! ## Constants from space_merc.h -/

def SCREEN_WIDTH : Int := 144

def SCREEN_HEIGHT : Int := 168

def STATUS_BAR_HEIGHT : Int := 16

def FIRST_WALL_OFFSET : Int := 16

def GRAPHICS_FRAME_WIDTH : Int := 144

def GRAPHICS_FRAME_HEIGHT : Int := 136

def LOCATION_WIDTH : Int := 15

def LOCATION_HEIGHT : Int := 15

def MAX_VISIBILITY_DEPTH : Int := 6

def STRAIGHT_AHEAD : Int := 5

def MAX_LARGE_INT_VALUE : Int := 999999999

def DEFAULT_CELL_HP : Int := 50

def MIN_DAMAGE : Int := 2

def MAX_NPCS_AT_ONE_TIME : Nat := 3

/-- Cell type codes. Solid runs from 1 to DEFAULT_CELL_HP. -/
def SOLID : Int := 1

def EMPTY : Int := 0

def ITEM : Int := -1

def HUMAN : Int := -2

/-! Mission types. -/

def EXCAVATE : Int := 0

def RETALIATE : Int := 1

def EXPROPRIATE : Int := 2

def EXTRICATE : Int := 3

def ASSASSINATE : Int := 4

def OBLITERATE : Int := 5

/-! Narration types. -/

def DEATH_NARRATION : Int := 6

def MISSION_FAILED_NARRATION : Int := 7

def MISSION_ACCOMPLISHED_NARRATION : Int := 8

/-! NPC types. -/

def ALIEN_OFFICER : Int := 6

/-! Directions. -/

def NORTH : Int := 0

def SOUTH : Int := 1

def EAST : Int := 2

def WEST : Int := 3

def NUM_DIRECTIONS : Nat := 4

/-! ## Data model -/

/-- Pebble's GPoint, used both for screen points and for grid coordinates. -/
structure GPoint where
  x : Int
  y : Int
deriving DecidableEq, Repr

/-- The mission's cells array; get_cell_type guards every in-game read with a
bounds check, so only in-bounds entries are ever observable. -/
def Grid := GPoint → Int

/-- One NPC node; the C linked list's next pointers become list order. -/
structure npc_t where
  position : GPoint
  type : Int
  power : Int
  hp : Int
deriving DecidableEq, Repr

/-- The player singleton g_player: the six-element stats array becomes six
named fields (indices ARMOR, MAX_HP, POWER, MAX_ENERGY, CURRENT_HP,
CURRENT_ENERGY). -/
structure player_t where
  position : GPoint
  direction : Int
  armor : Int
  max_hp : Int
  power : Int
  max_energy : Int
  current_hp : Int
  current_energy : Int
  money : Int
  damage_vibes_on : Bool

/-- The mission singleton g_mission. -/
structure mission_t where
  type : Int
  cells : Grid
  entrance_direction : Int
  num_npcs : Int
  kills : Int
  reward : Int
  starting_point : GPoint
  npcs : List npc_t
  completed : Bool

/-- The mutable globals touched by the embedded operations. -/
structure GameState where
  player : player_t
  mission : mission_t
  paused : Bool
  narration : Int

/-! ## Grid world model operations -/

/-- out_of_bounds: strict rectangle test against the 15 by 15 grid. -/
def out_of_bounds (cell : GPoint) : Bool :=
  decide (cell.x < 0) || decide (cell.x ≥ LOCATION_WIDTH) ||
  decide (cell.y < 0) || decide (cell.y ≥ LOCATION_HEIGHT)

/-- get_cell_type: out-of-bounds coordinates read as SOLID, otherwise the
stored code. -/
def get_cell_type (cells : Grid) (cell : GPoint) : Int :=
  if out_of_bounds cell then SOLID else cells cell

/-- set_cell_type: unchecked write into the cells array. -/
def set_cell_type (cells : Grid) (cell : GPoint) (t : Int) : Grid :=
  fun p => if p = cell then t else cells p

/-- get_npc_at: linear scan of the mission's NPC list. -/
def get_npc_at (s : GameState) (cell : GPoint) : Option npc_t :=
  s.mission.npcs.find? (fun n => decide (n.position = cell))

/-- occupiable: non-solid cell, player not there, no NPC there. -/
def occupiable (s : GameState) (cell : GPoint) : Bool :=
  decide (get_cell_type s.mission.cells cell ≤ EMPTY) &&
  !(decide (s.player.position = cell)) &&
  (get_npc_at s cell).isNone

/-- touching: strict 4-neighbor adjacency, mirroring the two abs-diff tests. -/
def touching (cell cell_2 : GPoint) : Bool :=
  let diff_x := cell.x - cell_2.x
  let diff_y := cell.y - cell_2.y
  (decide (diff_x = 0) && decide (diff_y.natAbs = 1)) ||
  (decide (diff_y = 0) && decide (diff_x.natAbs = 1))

/-- get_cell_farther_away: one switch on the direction code, any value other
than NORTH, SOUTH, EAST falling through to the WEST case. -/
def get_cell_farther_away (p : GPoint) (direction distance : Int) : GPoint :=
  if direction = NORTH then ⟨p.x, p.y - distance⟩
  else if direction = SOUTH then ⟨p.x, p.y + distance⟩
  else if direction = EAST then ⟨p.x + distance, p.y⟩
  else ⟨p.x - distance, p.y⟩

def get_direction_to_the_left (d : Int) : Int :=
  if d = NORTH then WEST
  else if d = WEST then SOUTH
  else if d = SOUTH then EAST
  else NORTH

def get_direction_to_the_right (d : Int) : Int :=
  if d = NORTH then EAST
  else if d = EAST then SOUTH
  else if d = SOUTH then WEST
  else NORTH

def get_opposite_direction (d : Int) : Int :=
  if d = NORTH then SOUTH
  else if d = SOUTH then NORTH
  else if d = EAST then WEST
  else EAST

/-- damage_cell: only in-bounds solid cells are affected; the stored HP drops
by the damage and the cell becomes EMPTY once below the solid threshold. -/
def damage_cell (s : GameState) (cell : GPoint) (damage : Int) : GameState :=
  if !(out_of_bounds cell) && decide (get_cell_type s.mission.cells cell > EMPTY) then
    let cells1 := set_cell_type s.mission.cells cell (s.mission.cells cell - damage)
    if get_cell_type cells1 cell < SOLID then
      { s with mission := { s.mission with cells := set_cell_type cells1 cell EMPTY } }
    else
      { s with mission := { s.mission with cells := cells1 } }
  else s

/-! ## Player stat and money adjustment -/

/-- adjust_player_money, as a pure function of the money value: returns the
new money plus the C function's bool result. -/
def adjust_player_money (money amount : Int) : Int × Bool :=
  if money + amount < 0 then (money, false)
  else if money + amount > MAX_LARGE_INT_VALUE then (MAX_LARGE_INT_VALUE, false)
  else (money + amount, true)

/-- adjust_player_current_hp: adds first, clamps only at max_hp; the branch
for hp at or below zero merely triggers the death narration. -/
def adjust_player_current_hp (s : GameState) (amount : Int) : GameState :=
  let hp := s.player.current_hp + amount
  if hp > s.player.max_hp then
    { s with player := { s.player with current_hp := s.player.max_hp } }
  else if hp ≤ 0 then
    { s with player := { s.player with current_hp := hp },
             narration := DEATH_NARRATION }
  else
    { s with player := { s.player with current_hp := hp } }

/-- adjust_player_current_ammo: adds first, clamps only at max_energy. -/
def adjust_player_current_ammo (s : GameState) (amount : Int) : GameState :=
  let en := s.player.current_energy + amount
  if en > s.player.max_energy then
    { s with player := { s.player with current_energy := s.player.max_energy } }
  else
    { s with player := { s.player with current_energy := en } }

/-! ## Shared sample states for concrete evaluations -/

def empty_grid : Grid := fun _ => EMPTY

def full_grid : Grid := fun _ => DEFAULT_CELL_HP

def sample_player : player_t :=
  { position := ⟨7, 7⟩, direction := SOUTH, armor := 10, max_hp := 30,
    power := 10, max_energy := 30, current_hp := 5, current_energy := 3,
    money := 0, damage_vibes_on := false }

def sample_mission : mission_t :=
  { type := OBLITERATE, cells := empty_grid, entrance_direction := NORTH,
    num_npcs := 3, kills := 0, reward := 1000, starting_point := ⟨0, 0⟩,
    npcs := [], completed := false }

def sample_state : GameState :=
  { player := sample_player, mission := sample_mission,
    paused := false, narration := 0 }

/-! ## C1: out-of-bounds reads -/

/-- C1 counterexample: even on a grid whose stored cells all hold the maximum
code DEFAULT_CELL_HP, an out-of-bounds read returns the SOLID constant 1,
not the maximum cell code, refuting the claim that get_cell_type returns the
maximum code out of bounds. -/
theorem c1_counterexample :
    out_of_bounds ⟨-1, 0⟩ = true ∧
    get_cell_type full_grid ⟨-1, 0⟩ = SOLID ∧
    get_cell_type full_grid ⟨-1, 0⟩ ≠ DEFAULT_CELL_HP := by
  decide

/-- C1 (amended): for every coordinate outside the 15 by 15 grid,
get_cell_type returns the SOLID constant (1, the minimum solid code, not the
maximum), regardless of the grid's stored contents, and damage_cell never
modifies the state at an out-of-bounds cell, so such cells behave as
permanently solid walls. -/
theorem c1_oob_reads_solid (g : Grid) (s : GameState) (cell : GPoint)
    (damage : Int) (h : out_of_bounds cell = true) :
    get_cell_type g cell = SOLID ∧ SOLID > EMPTY ∧
    damage_cell s cell damage = s := by
  refine ⟨by simp [get_cell_type, h], by decide, ?_⟩
  simp [damage_cell, h]

/-- C1 witness: the amended theorem applied at the concrete out-of-bounds
point (-1, 0). -/
theorem c1_witness :
    out_of_bounds ⟨-1, 0⟩ = true ∧
    (get_cell_type full_grid ⟨-1, 0⟩ = SOLID ∧ SOLID > EMPTY ∧
      damage_cell sample_state ⟨-1, 0⟩ 5 = sample_state) :=
  ⟨by decide, c1_oob_reads_solid full_grid sample_state ⟨-1, 0⟩ 5 (by decide)⟩

/-! ## C9: touching -/

theorem touching_iff (a b : GPoint) :
    touching a b = true ↔ (a.x - b.x).natAbs + (a.y - b.y).natAbs = 1 := by
  simp only [touching, Bool.or_eq_true, Bool.and_eq_true, decide_eq_true_eq]
  omega

/-- C9: touching is symmetric, and touching a b holds exactly when the
Manhattan distance between a and b is 1, that is, the two points share one
coordinate and differ by exactly 1 in the other. -/
theorem c9_touching_symm_manhattan (a b : GPoint) :
    touching a b = touching b a ∧
    (touching a b = true ↔ (a.x - b.x).natAbs + (a.y - b.y).natAbs = 1) := by
  refine ⟨?_, touching_iff a b⟩
  have h1 := touching_iff a b
  have h2 := touching_iff b a
  have : (touching a b = true) ↔ (touching b a = true) := by
    rw [h1, h2]
    omega
  exact Bool.coe_iff_coe.mp this

/-! ## C5: money saturation -/

/-- C5: adjust_player_money saturates at MAX_LARGE_INT_VALUE with a false
result, rejects adjustments that would drop the money below zero leaving it
unchanged with a false result, and otherwise applies the full delta with a
true result. -/
theorem c5_adjust_player_money_spec (money amount : Int) :
    (money + amount > MAX_LARGE_INT_VALUE →
      adjust_player_money money amount = (MAX_LARGE_INT_VALUE, false)) ∧
    (money + amount < 0 →
      adjust_player_money money amount = (money, false)) ∧
    (0 ≤ money + amount → money + amount ≤ MAX_LARGE_INT_VALUE →
      adjust_player_money money amount = (money + amount, true)) := by
  unfold adjust_player_money MAX_LARGE_INT_VALUE
  refine ⟨fun h => ?_, fun h => ?_, fun h1 h2 => ?_⟩ <;>
    split_ifs <;> first | rfl | omega

/-- C5 witness: the saturation case at a concrete overflowing input. -/
theorem c5_witness :
    (999999990 : Int) + 20 > MAX_LARGE_INT_VALUE ∧
    adjust_player_money 999999990 20 = (MAX_LARGE_INT_VALUE, false) :=
  ⟨by decide, (c5_adjust_player_money_spec 999999990 20).1 (by decide)⟩

/-! ## C4: hp and ammo clamping -/

/-- C4 (code bug): neither adjust_player_current_hp nor
adjust_player_current_ammo clamps at zero, contradicting both the claim and
the functions' own doc comments (hit points and ammo may not be reduced
below zero): from current_hp 5 a -7 adjustment leaves -2, and from
current_energy 3 a -5 adjustment leaves -2. -/
theorem c4_no_lower_clamp :
    (adjust_player_current_hp sample_state (-7)).player.current_hp = -2 ∧
    (adjust_player_current_hp sample_state (-7)).player.current_hp < 0 ∧
    (adjust_player_current_ammo sample_state (-5)).player.current_energy = -2 ∧
    (adjust_player_current_ammo sample_state (-5)).player.current_energy < 0 := by
  decide

/-! ## Movement: move_player, move_npc (claims C2 and C10) -/

/-- end_mission: pauses the game, grants the reward when the mission is
completed, and selects the conclusion narration (window and persistence side
effects are external). -/
def end_mission (s : GameState) : GameState :=
  if s.mission.completed then
    { s with
      paused := true
      player := { s.player with
        money := (adjust_player_money s.player.money s.mission.reward).1 }
      narration := MISSION_ACCOMPLISHED_NARRATION }
  else
    { s with paused := true, narration := MISSION_FAILED_NARRATION }

/-- move_player from space_merc.c: note that the exit check tests only the
player's position and facing, never the direction argument. -/
def move_player (s : GameState) (direction : Int) : GameState :=
  if s.player.position = s.mission.starting_point ∧
     s.player.direction = s.mission.entrance_direction then
    end_mission s
  else if occupiable s (get_cell_farther_away s.player.position direction 1) then
    if get_cell_type s.mission.cells
         (get_cell_farther_away s.player.position direction 1) = HUMAN ∨
       get_cell_type s.mission.cells
         (get_cell_farther_away s.player.position direction 1) = ITEM then
      { s with
        player := { s.player with
          position := get_cell_farther_away s.player.position direction 1 },
        mission := { s.mission with
          cells := set_cell_type s.mission.cells
            (get_cell_farther_away s.player.position direction 1) EMPTY,
          completed := true } }
    else
      { s with player := { s.player with
          position := get_cell_farther_away s.player.position direction 1 } }
  else s

/-- move_npc: the NPC pointer becomes an index into the NPC list. -/
def move_npc (s : GameState) (i : Nat) (direction : Int) : GameState :=
  match s.mission.npcs[i]? with
  | none => s
  | some npc =>
    if occupiable s (get_cell_farther_away npc.position direction 1) then
      { s with mission := { s.mission with
          npcs := s.mission.npcs.set i
            { npc with position := get_cell_farther_away npc.position direction 1 } } }
    else s

/-- A concrete state sitting on the mission entrance, facing the entrance
direction, on an otherwise empty grid. -/
def c2_state : GameState :=
  { player := { sample_player with position := ⟨0, 0⟩, direction := NORTH },
    mission := sample_mission, paused := false, narration := 0 }

/-- C2 counterexample: with the player standing on the entrance cell and
facing the entrance direction (NORTH), a move_player call with direction
SOUTH, which differs from the entrance direction, still takes the
mission-conclusion branch (the game pauses into the conclusion handling and
the player does not move), even though the one-step SOUTH destination is
occupiable; the claim says the conclusion branch requires the direction
argument to equal the entrance direction and that otherwise the player
relocates to an occupiable destination. -/
theorem c2_counterexample :
    SOUTH ≠ c2_state.mission.entrance_direction ∧
    occupiable c2_state (get_cell_farther_away c2_state.player.position SOUTH 1) = true ∧
    (move_player c2_state SOUTH).paused = true ∧
    (move_player c2_state SOUTH).narration = MISSION_FAILED_NARRATION ∧
    (move_player c2_state SOUTH).player.position = c2_state.player.position := by
  decide

/-- C2 (amended): the mission-conclusion branch is taken if and only if the
player's position equals the mission entrance cell and the player's facing
direction equals the entrance direction; the direction argument is not
consulted for that test. In every other case the player is relocated to the
one-step destination exactly when that destination is occupiable, and a
non-occupiable destination leaves the player's position unchanged with no
error. -/
theorem c2_move_player_spec (s : GameState) (d : Int) (hpause : s.paused = false) :
    ((move_player s d).paused = true ↔
      (s.player.position = s.mission.starting_point ∧
       s.player.direction = s.mission.entrance_direction)) ∧
    (s.player.position = s.mission.starting_point ∧
       s.player.direction = s.mission.entrance_direction →
      (move_player s d).player.position = s.player.position) ∧
    (¬(s.player.position = s.mission.starting_point ∧
       s.player.direction = s.mission.entrance_direction) →
      (occupiable s (get_cell_farther_away s.player.position d 1) = true →
        (move_player s d).player.position =
          get_cell_farther_away s.player.position d 1) ∧
      (occupiable s (get_cell_farther_away s.player.position d 1) = false →
        (move_player s d).player.position = s.player.position)) := by
  unfold move_player end_mission
  refine ⟨?_, ?_, ?_⟩
  · constructor
    · intro hp
      by_contra hcond
      rw [if_neg hcond] at hp
      revert hp
      split_ifs <;> simp [hpause]
    · intro hcond
      rw [if_pos hcond]
      split_ifs <;> rfl
  · intro h
    rw [if_pos h]
    split_ifs <;> rfl
  · intro h
    rw [if_neg h]
    constructor
    · intro hocc
      rw [if_pos hocc]
      split_ifs <;> rfl
    · intro hocc
      rw [if_neg (by simp [hocc])]

/-- C2 witness: the amended theorem applied at a concrete state away from the
entrance, where a WEST move to an occupiable cell relocates the player. -/
theorem c2_witness :
    sample_state.paused = false ∧
    (¬(sample_state.player.position = sample_state.mission.starting_point ∧
       sample_state.player.direction = sample_state.mission.entrance_direction) →
      (occupiable sample_state
          (get_cell_farther_away sample_state.player.position WEST 1) = true →
        (move_player sample_state WEST).player.position =
          get_cell_farther_away sample_state.player.position WEST 1) ∧
      (occupiable sample_state
          (get_cell_farther_away sample_state.player.position WEST 1) = false →
        (move_player sample_state WEST).player.position =
          sample_state.player.position)) :=
  ⟨by decide, (c2_move_player_spec sample_state WEST (by decide)).2.2⟩

/-- Any occupiable cell is in bounds, because out-of-bounds cells read as
SOLID which is above EMPTY. -/
theorem occupiable_inbounds (s : GameState) (c : GPoint)
    (h : occupiable s c = true) : out_of_bounds c = false := by
  by_contra hne
  have hb : out_of_bounds c = true := by
    cases hoob : out_of_bounds c
    · exact absurd hoob hne
    · rfl
  have : get_cell_type s.mission.cells c = SOLID := by
    simp [get_cell_type, hb]
  simp [occupiable, this, SOLID, EMPTY] at h

/-- C10: out-of-bounds cells are never occupiable, and consequently neither
move_player nor move_npc can relocate the player or an NPC out of the 15 by
15 grid: from in-bounds positions every movement result stays in bounds. -/
theorem c10_movement_stays_in_bounds (s : GameState) (c : GPoint)
    (d : Int) (i : Nat)
    (hoob : out_of_bounds c = true)
    (hplayer : out_of_bounds s.player.position = false)
    (hnpcs : ∀ n ∈ s.mission.npcs, out_of_bounds n.position = false) :
    occupiable s c = false ∧
    out_of_bounds (move_player s d).player.position = false ∧
    (∀ n ∈ (move_npc s i d).mission.npcs, out_of_bounds n.position = false) := by
  refine ⟨?_, ?_, ?_⟩
  · have : get_cell_type s.mission.cells c = SOLID := by
      simp [get_cell_type, hoob]
    simp [occupiable, this, SOLID, EMPTY]
  · unfold move_player end_mission
    split_ifs with h1 h2 h3 h4 <;>
      first
        | exact hplayer
        | exact occupiable_inbounds s _ (by assumption)
  · unfold move_npc
    cases hidx : s.mission.npcs[i]? with
    | none => exact hnpcs
    | some npc =>
      simp only
      split_ifs with hocc
      · intro n hn
        rcases List.mem_or_eq_of_mem_set hn with hmem | hset
        · exact hnpcs n hmem
        · rw [hset]
          exact occupiable_inbounds s _ hocc
      · exact hnpcs

/-- C10 witness: the bounds preservation applied at a concrete state with one
NPC, an out-of-bounds probe cell, and a SOUTH move. -/
theorem c10_witness :
    out_of_bounds ⟨15, 3⟩ = true ∧
    out_of_bounds sample_state.player.position = false ∧
    (∀ n ∈ sample_state.mission.npcs, out_of_bounds n.position = false) ∧
    (occupiable sample_state ⟨15, 3⟩ = false ∧
     out_of_bounds (move_player sample_state SOUTH).player.position = false ∧
     (∀ n ∈ (move_npc sample_state 0 SOUTH).mission.npcs,
        out_of_bounds n.position = false)) :=
  ⟨by decide, by decide, by decide,
    c10_movement_stays_in_bounds sample_state ⟨15, 3⟩ SOUTH 0
      (by decide) (by decide) (by decide)⟩

/-! ## Combat: damage_npc (claim C6) -/

/-- remove_npc: the C code unlinks the node with the given pointer identity
from the mission's linked list; on the list embedding, pointer identity is
the node's index, so removal is eraseIdx. -/
def remove_npc (npcs : List npc_t) (i : Nat) : List npc_t :=
  npcs.eraseIdx i

/-- damage_npc: subtract the damage from the NPC's hp; at or below zero the
kill counter increments, mission completion is evaluated (assassination of
the officer, or a kill-quota type whose updated kill count reaches
num_npcs), and the NPC is removed. -/
def damage_npc (s : GameState) (i : Nat) (damage : Int) : GameState :=
  match s.mission.npcs[i]? with
  | none => s
  | some npc =>
    if npc.hp - damage ≤ 0 then
      { s with mission := { s.mission with
          kills := s.mission.kills + 1
          completed := s.mission.completed ||
            decide ((s.mission.type = ASSASSINATE ∧ npc.type = ALIEN_OFFICER) ∨
              ((s.mission.type = OBLITERATE ∨ s.mission.type = RETALIATE) ∧
               s.mission.kills + 1 ≥ s.mission.num_npcs))
          npcs := remove_npc s.mission.npcs i } }
    else
      { s with mission := { s.mission with
          npcs := s.mission.npcs.set i { npc with hp := npc.hp - damage } } }

/-- C6: a damage_npc call that brings the NPC's hp to zero or below
increments the mission kill count by exactly one, removes the NPC (and, when
no other NPC shares its position, later position lookups no longer find it),
and sets the completed flag exactly when the mission is an assassination and
the dying NPC is the alien officer, or the mission is a kill-quota type
(OBLITERATE or RETALIATE) whose updated kill count has reached the mission's
total target NPC count. -/
theorem c6_damage_npc_kill (s : GameState) (i : Nat) (damage : Int)
    (npc : npc_t)
    (hget : s.mission.npcs[i]? = some npc)
    (hkill : npc.hp - damage ≤ 0)
    (hc : s.mission.completed = false) :
    (damage_npc s i damage).mission.kills = s.mission.kills + 1 ∧
    (damage_npc s i damage).mission.npcs = s.mission.npcs.eraseIdx i ∧
    ((damage_npc s i damage).mission.completed = true ↔
      ((s.mission.type = ASSASSINATE ∧ npc.type = ALIEN_OFFICER) ∨
       ((s.mission.type = OBLITERATE ∨ s.mission.type = RETALIATE) ∧
        s.mission.kills + 1 ≥ s.mission.num_npcs))) ∧
    ((∀ j, ∀ m : npc_t, j ≠ i → s.mission.npcs[j]? = some m →
        m.position ≠ npc.position) →
      get_npc_at (damage_npc s i damage) npc.position = none) := by
  have hd : damage_npc s i damage =
      { s with mission := { s.mission with
          kills := s.mission.kills + 1
          completed := s.mission.completed ||
            decide ((s.mission.type = ASSASSINATE ∧ npc.type = ALIEN_OFFICER) ∨
              ((s.mission.type = OBLITERATE ∨ s.mission.type = RETALIATE) ∧
               s.mission.kills + 1 ≥ s.mission.num_npcs))
          npcs := remove_npc s.mission.npcs i } } := by
    unfold damage_npc
    rw [hget]
    exact if_pos hkill
  refine ⟨by rw [hd], by rw [hd]; rfl, ?_, ?_⟩
  · rw [hd]
    simp [hc]
  · intro hdist
    rw [hd]
    unfold get_npc_at
    simp only
    rw [List.find?_eq_none]
    intro x hx
    rw [remove_npc] at hx
    rw [List.mem_eraseIdx_iff_getElem?] at hx
    obtain ⟨j, hj_ne, hj_get⟩ := hx
    simpa using hdist j x hj_ne hj_get

/-- Three NPCs for the C6 kill-quota scenario. -/
def c6_npcs : List npc_t :=
  [{ position := ⟨3, 3⟩, type := 0, power := 5, hp := 10 },
   { position := ⟨4, 3⟩, type := 1, power := 5, hp := 10 },
   { position := ⟨5, 3⟩, type := 2, power := 5, hp := 10 }]

/-- A kill-quota (OBLITERATE) mission with total target NPC count 3. -/
def c6_s0 : GameState :=
  { sample_state with mission := { sample_mission with
      type := OBLITERATE, num_npcs := 3, npcs := c6_npcs } }

def c6_s1 : GameState := damage_npc c6_s0 0 100

def c6_s2 : GameState := damage_npc c6_s1 0 100

/-- C6 witness, the kill-quota scenario: in an OBLITERATE mission with
total_target_npc_count 3, after the third distinct NPC is reduced to hp at
or below 0, completed is true and kills equals 3; the third call's effect is
obtained from the C6 theorem applied at the state after two kills. -/
theorem c6_witness :
    c6_s2.mission.kills = 2 ∧ c6_s2.mission.completed = false ∧
    (damage_npc c6_s2 0 100).mission.kills = 3 ∧
    (damage_npc c6_s2 0 100).mission.completed = true := by
  have h := c6_damage_npc_kill c6_s2 0 100
    { position := ⟨5, 3⟩, type := 2, power := 5, hp := 10 }
    (by decide) (by decide) (by decide)
  refine ⟨by decide, by decide, ?_, ?_⟩
  · rw [h.1]
    decide
  · rw [h.2.2.1]
    decide

/-! ## Geometry table: init_wall_coords (claim C8)

The float arithmetic in init_wall_coords (perspective_modifier = 2.0) only
ever produces exact small integers (FIRST_WALL_OFFSET - 2*i added to integer
accumulators), so the table is embedded over Int. -/

/-- Center-column top-left corner accumulated across depths, mirroring the
first part of the loop body of init_wall_coords: depth 0 starts at
(FIRST_WALL_OFFSET, FIRST_WALL_OFFSET); each later depth adds
FIRST_WALL_OFFSET - perspective_modifier * i to the previous corner. -/
def center_top_left : Nat → GPoint
  | 0 => ⟨FIRST_WALL_OFFSET, FIRST_WALL_OFFSET⟩
  | n + 1 =>
    ⟨(center_top_left n).x + (FIRST_WALL_OFFSET - 2 * ((n : Int) + 1)),
     (center_top_left n).y + (FIRST_WALL_OFFSET - 2 * ((n : Int) + 1))⟩

/-- g_back_wall_coords after init_wall_coords has run: the top-left and
bottom-right corners of the back wall at forward depth i and lateral slot
pos (center slot STRAIGHT_AHEAD = 5). The bottom-right corner mirrors the
top-left across the graphics frame; lateral slots shift both corners
horizontally by (pos - STRAIGHT_AHEAD) times the center wall width. -/
def g_back_wall_coords (i pos : Nat) : GPoint × GPoint :=
  let tl := center_top_left i
  let br : GPoint := ⟨GRAPHICS_FRAME_WIDTH - tl.x, GRAPHICS_FRAME_HEIGHT - tl.y⟩
  let wall_width := br.x - tl.x
  (⟨tl.x + ((pos : Int) - STRAIGHT_AHEAD) * wall_width, tl.y⟩,
   ⟨br.x + ((pos : Int) - STRAIGHT_AHEAD) * wall_width, br.y⟩)

/-- C8 counterexample: the per-step inset of the center back wall is not
fixed across depths: from depth 0 to 1 the top-left corner moves in by 14,
from depth 1 to 2 by 12. Moreover the rectangles are not symmetric about the
screen's vertical center (the top and bottom edges of the depth-1 wall sum
to 136, the graphics-frame height, not to SCREEN_HEIGHT = 168). -/
theorem c8_counterexample :
    (g_back_wall_coords 1 5).1.x - (g_back_wall_coords 0 5).1.x = 14 ∧
    (g_back_wall_coords 2 5).1.x - (g_back_wall_coords 1 5).1.x = 12 ∧
    (14 : Int) ≠ 12 ∧
    (g_back_wall_coords 1 5).1.y + (g_back_wall_coords 1 5).2.y ≠
      2 * (SCREEN_HEIGHT / 2) := by
  decide

/-- C8 (amended): at each forward depth i in [1,4] the center-slot back-wall
rectangle is the previous depth's rectangle shrunk symmetrically around the
graphics frame's center (72, 68) by a per-step inset of
FIRST_WALL_OFFSET - 2*i, an inset that decreases linearly with depth rather
than staying fixed; and each lateral slot's rectangle at a given depth is
the center slot's rectangle offset horizontally by the slot's signed
distance from center times the center slot's width at that depth. -/
theorem c8_wall_coords_spec (i pos : Nat)
    (h1 : 1 ≤ i) (h2 : i ≤ 4) (hpos : pos ≤ 10) :
    ((g_back_wall_coords i 5).1.x =
       (g_back_wall_coords (i - 1) 5).1.x + (FIRST_WALL_OFFSET - 2 * i) ∧
     (g_back_wall_coords i 5).1.y =
       (g_back_wall_coords (i - 1) 5).1.y + (FIRST_WALL_OFFSET - 2 * i) ∧
     (g_back_wall_coords i 5).2.x =
       (g_back_wall_coords (i - 1) 5).2.x - (FIRST_WALL_OFFSET - 2 * i) ∧
     (g_back_wall_coords i 5).2.y =
       (g_back_wall_coords (i - 1) 5).2.y - (FIRST_WALL_OFFSET - 2 * i)) ∧
    ((g_back_wall_coords i 5).1.x + (g_back_wall_coords i 5).2.x =
       GRAPHICS_FRAME_WIDTH ∧
     (g_back_wall_coords i 5).1.y + (g_back_wall_coords i 5).2.y =
       GRAPHICS_FRAME_HEIGHT) ∧
    ((g_back_wall_coords i pos).1.x = (g_back_wall_coords i 5).1.x +
       ((pos : Int) - STRAIGHT_AHEAD) *
         ((g_back_wall_coords i 5).2.x - (g_back_wall_coords i 5).1.x) ∧
     (g_back_wall_coords i pos).1.y = (g_back_wall_coords i 5).1.y ∧
     (g_back_wall_coords i pos).2.x = (g_back_wall_coords i 5).2.x +
       ((pos : Int) - STRAIGHT_AHEAD) *
         ((g_back_wall_coords i 5).2.x - (g_back_wall_coords i 5).1.x) ∧
     (g_back_wall_coords i pos).2.y = (g_back_wall_coords i 5).2.y) := by
  interval_cases i <;> interval_cases pos <;> decide

/-- C8 witness: the amended geometry relations at depth 1, slot 3. -/
theorem c8_witness :
    1 ≤ 1 ∧ 1 ≤ 4 ∧ 3 ≤ 10 ∧
    (((g_back_wall_coords 1 5).1.x =
        (g_back_wall_coords 0 5).1.x + (FIRST_WALL_OFFSET - 2 * 1) ∧
      (g_back_wall_coords 1 5).1.y =
        (g_back_wall_coords 0 5).1.y + (FIRST_WALL_OFFSET - 2 * 1) ∧
      (g_back_wall_coords 1 5).2.x =
        (g_back_wall_coords 0 5).2.x - (FIRST_WALL_OFFSET - 2 * 1) ∧
      (g_back_wall_coords 1 5).2.y =
        (g_back_wall_coords 0 5).2.y - (FIRST_WALL_OFFSET - 2 * 1)) ∧
     ((g_back_wall_coords 1 5).1.x + (g_back_wall_coords 1 5).2.x =
        GRAPHICS_FRAME_WIDTH ∧
      (g_back_wall_coords 1 5).1.y + (g_back_wall_coords 1 5).2.y =
        GRAPHICS_FRAME_HEIGHT) ∧
     ((g_back_wall_coords 1 3).1.x = (g_back_wall_coords 1 5).1.x +
        ((3 : Int) - STRAIGHT_AHEAD) *
          ((g_back_wall_coords 1 5).2.x - (g_back_wall_coords 1 5).1.x) ∧
      (g_back_wall_coords 1 3).1.y = (g_back_wall_coords 1 5).1.y ∧
      (g_back_wall_coords 1 3).2.x = (g_back_wall_coords 1 5).2.x +
        ((3 : Int) - STRAIGHT_AHEAD) *
          ((g_back_wall_coords 1 5).2.x - (g_back_wall_coords 1 5).1.x) ∧
      (g_back_wall_coords 1 3).2.y = (g_back_wall_coords 1 5).2.y)) :=
  ⟨by decide, by decide, by decide,
    c8_wall_coords_spec 1 3 (by decide) (by decide) (by decide)⟩

/-! ## NPC spawning: get_npc_spawn_point and add_new_npc (claim C7)

The rand() stream becomes an explicit Rng argument threaded through the
loops; the spawn search's inner do-while can consume unboundedly many rand
values (it keeps re-checking the left candidate while the coin stays odd),
so it takes a fuel argument and reports a timeout when the fuel runs out. -/

def BEAST : Int := 0

def OOZE : Int := 1

def FLOATING_MONSTROSITY : Int := 2

def ROBOT : Int := 3

def ALIEN_SOLDIER : Int := 4

def ALIEN_ELITE : Int := 5

/-- The pseudo-random stream: rand() values by draw index. -/
def Rng : Type := Nat → Nat

/-- One rand() call: the drawn value and the remaining stream. -/
def randStep (r : Rng) : Nat × Rng := (r 0, fun n => r (n + 1))

/-- init_npc: stats derived from the player's; the 1.5 float multipliers act
on nonnegative int16 values, where truncation equals multiplying by 3 and
dividing by 2. -/
def init_npc (s : GameState) (npc_type : Int) (position : GPoint) : npc_t :=
  let power0 := (s.player.armor + s.player.max_hp) / 5
  let hp0 := s.player.power + s.player.max_energy
  { position := position
    type := npc_type
    power := if npc_type = ALIEN_OFFICER ∨ npc_type = ALIEN_ELITE ∨
                npc_type = BEAST ∨ npc_type = FLOATING_MONSTROSITY
             then power0 * 3 / 2 else power0
    hp := if npc_type = ALIEN_OFFICER ∨ npc_type = ROBOT ∨
             npc_type = OOZE ∨ npc_type = FLOATING_MONSTROSITY
          then hp0 * 3 / 2 else hp0 }

/-- add_new_npc: only an occupiable position gets a new NPC; an empty list
gets one unconditionally, otherwise the walk-to-tail count (which equals the
list length) must stay below MAX_NPCS_AT_ONE_TIME. -/
def add_new_npc (s : GameState) (npc_type : Int) (position : GPoint) : GameState :=
  if occupiable s position then
    if s.mission.npcs = [] then
      { s with mission := { s.mission with
          npcs := [init_npc s npc_type position] } }
    else if s.mission.npcs.length < MAX_NPCS_AT_ONE_TIME then
      { s with mission := { s.mission with
          npcs := s.mission.npcs ++ [init_npc s npc_type position] } }
    else s
  else s

/-- The outer spawn loop's direction rotation. -/
def rotate_direction (d : Int) : Int :=
  if d + 1 = 4 then NORTH else d + 1

/-- Result of a spawn-search loop: fuel exhausted, no point found (with the
remaining rand stream), or a point returned. -/
inductive SpawnRes where
  | timeout : SpawnRes
  | nofind : Rng → SpawnRes
  | found : GPoint → SpawnRes

/-- The do-while of get_npc_spawn_point at lateral distance j: checks the
cell j to the left of the projected point when the coin is odd (or once the
right has been checked, without drawing a coin), the cell j to the right
when the coin is even and the right is unchecked, until both sides have been
checked. -/
def spawn_check_lateral (s : GameState) (sp : GPoint) (direction : Int)
    (j : Nat) (checked_left checked_right : Bool) (r : Rng)
    (fuel : Nat) : SpawnRes :=
  match fuel with
  | 0 => SpawnRes.timeout
  | fuel + 1 =>
    if checked_right then
      if occupiable s (get_cell_farther_away sp
          (get_direction_to_the_left direction) (j : Int)) then
        SpawnRes.found (get_cell_farther_away sp
          (get_direction_to_the_left direction) (j : Int))
      else
        SpawnRes.nofind r
    else
      let v := (randStep r).1
      let r1 := (randStep r).2
      if v % 2 = 1 then
        if occupiable s (get_cell_farther_away sp
            (get_direction_to_the_left direction) (j : Int)) then
          SpawnRes.found (get_cell_farther_away sp
            (get_direction_to_the_left direction) (j : Int))
        else
          spawn_check_lateral s sp direction j true false r1 fuel
      else
        if occupiable s (get_cell_farther_away sp
            (get_direction_to_the_right direction) (j : Int)) then
          SpawnRes.found (get_cell_farther_away sp
            (get_direction_to_the_right direction) (j : Int))
        else if checked_left then
          SpawnRes.nofind r1
        else
          spawn_check_lateral s sp direction j checked_left true r1 fuel

/-- The j-loop of get_npc_spawn_point: lateral distances 1 to
MAX_VISIBILITY_DEPTH - 2. -/
def spawn_scan_depths (s : GameState) (sp : GPoint) (direction : Int)
    (js : List Nat) (r : Rng) (fuel : Nat) : SpawnRes :=
  match js with
  | [] => SpawnRes.nofind r
  | j :: rest =>
    match spawn_check_lateral s sp direction j false false r fuel with
    | SpawnRes.timeout => SpawnRes.timeout
    | SpawnRes.found p => SpawnRes.found p
    | SpawnRes.nofind r1 => spawn_scan_depths s sp direction rest r1 fuel

/-- The i-loop of get_npc_spawn_point over the four compass directions;
count is the number of directions still to try, and the sentinel (-1, -1) is
produced when all four are exhausted. -/
def spawn_scan_directions (s : GameState) (count : Nat) (direction : Int)
    (r : Rng) (fuel : Nat) : SpawnRes :=
  match count with
  | 0 => SpawnRes.found ⟨-1, -1⟩
  | count + 1 =>
    if out_of_bounds (get_cell_farther_away s.player.position direction
        MAX_VISIBILITY_DEPTH) then
      spawn_scan_directions s count (rotate_direction direction) r fuel
    else if occupiable s (get_cell_farther_away s.player.position direction
        MAX_VISIBILITY_DEPTH) then
      SpawnRes.found (get_cell_farther_away s.player.position direction
        MAX_VISIBILITY_DEPTH)
    else
      match spawn_scan_depths s (get_cell_farther_away s.player.position
          direction MAX_VISIBILITY_DEPTH) direction [1, 2, 3, 4] r fuel with
      | SpawnRes.timeout => SpawnRes.timeout
      | SpawnRes.found p => SpawnRes.found p
      | SpawnRes.nofind r1 =>
        spawn_scan_directions s count (rotate_direction direction) r1 fuel

/-- get_npc_spawn_point: a random starting direction, then the rotating
four-direction scan; none models a run whose do-while exceeded the fuel. -/
def get_npc_spawn_point (s : GameState) (r : Rng) (fuel : Nat) : Option GPoint :=
  match spawn_scan_directions s NUM_DIRECTIONS
      ((((randStep r).1 % NUM_DIRECTIONS : Nat) : Int)) (randStep r).2 fuel with
  | SpawnRes.timeout => none
  | SpawnRes.nofind _ => none
  | SpawnRes.found p => some p

/-- The player's visibility cone, read off the iteration space of
draw_scene: the cells straight ahead at forward depths 0 to
MAX_VISIBILITY_DEPTH - 2, plus, at each such depth, the cells up to
depth + 1 steps to the left or right. -/
def in_visibility_cone (pos : GPoint) (d : Int) (c : GPoint) : Prop :=
  ∃ depth : Nat, depth ≤ 4 ∧
    (c = get_cell_farther_away pos d (depth : Int) ∨
     ∃ i : Nat, 1 ≤ i ∧ i ≤ depth + 1 ∧
       (c = get_cell_farther_away (get_cell_farther_away pos d (depth : Int))
              (get_direction_to_the_left d) (i : Int) ∨
        c = get_cell_farther_away (get_cell_farther_away pos d (depth : Int))
              (get_direction_to_the_right d) (i : Int)))

/-- Any cell exactly 6 steps away along one axis and at most 4 along the
other lies outside the visibility cone of every facing direction: the cone
reaches at most 4 cells forward and 5 sideways. -/
theorem not_in_cone_of_offsets (pos c : GPoint) (d : Int)
    (h : ((c.x - pos.x).natAbs = 6 ∧ (c.y - pos.y).natAbs ≤ 4) ∨
         ((c.y - pos.y).natAbs = 6 ∧ (c.x - pos.x).natAbs ≤ 4)) :
    ¬ in_visibility_cone pos d c := by
  rintro ⟨depth, hdepth, hc⟩
  by_cases hd0 : d = (0 : Int)
  · subst hd0
    rcases hc with hc | ⟨i, hi1, hi2, hc | hc⟩ <;> subst hc <;>
      simp [get_cell_farther_away, get_direction_to_the_left,
        get_direction_to_the_right, NORTH, SOUTH, EAST, WEST] at h <;>
      omega
  · by_cases hd1 : d = (1 : Int)
    · subst hd1
      rcases hc with hc | ⟨i, hi1, hi2, hc | hc⟩ <;> subst hc <;>
        simp [get_cell_farther_away, get_direction_to_the_left,
          get_direction_to_the_right, NORTH, SOUTH, EAST, WEST] at h <;>
        omega
    · by_cases hd2 : d = (2 : Int)
      · subst hd2
        rcases hc with hc | ⟨i, hi1, hi2, hc | hc⟩ <;> subst hc <;>
          simp [get_cell_farther_away, get_direction_to_the_left,
            get_direction_to_the_right, NORTH, SOUTH, EAST, WEST] at h <;>
          omega
      · by_cases hd3 : d = (3 : Int)
        · subst hd3
          rcases hc with hc | ⟨i, hi1, hi2, hc | hc⟩ <;> subst hc <;>
            simp [get_cell_farther_away, get_direction_to_the_left,
              get_direction_to_the_right, NORTH, SOUTH, EAST, WEST] at h <;>
            omega
        · rcases hc with hc | ⟨i, hi1, hi2, hc | hc⟩ <;> subst hc <;>
            simp [get_cell_farther_away, get_direction_to_the_left,
              get_direction_to_the_right, NORTH, SOUTH, EAST, WEST,
              hd0, hd1, hd2, hd3] at h <;>
            omega

theorem farther_zero (p : GPoint) (d : Int) :
    get_cell_farther_away p d 0 = p := by
  cases p
  unfold get_cell_farther_away
  split_ifs <;> simp

/-- Every lateral spawn candidate (the point projected MAX_VISIBILITY_DEPTH
cells out in a compass direction, then up to 4 cells to its left or right)
lies outside the visibility cone of every facing direction. -/
theorem spawn_candidates_not_in_cone (pos : GPoint) (d direction : Int)
    (j : Nat)
    (hdir : direction = 0 ∨ direction = 1 ∨ direction = 2 ∨ direction = 3)
    (hj : j ≤ 4) :
    ¬ in_visibility_cone pos d (get_cell_farther_away
        (get_cell_farther_away pos direction MAX_VISIBILITY_DEPTH)
        (get_direction_to_the_left direction) (j : Int)) ∧
    ¬ in_visibility_cone pos d (get_cell_farther_away
        (get_cell_farther_away pos direction MAX_VISIBILITY_DEPTH)
        (get_direction_to_the_right direction) (j : Int)) := by
  constructor <;>
    apply not_in_cone_of_offsets <;>
    rcases hdir with hd | hd | hd | hd <;> subst hd <;>
    simp [get_cell_farther_away, get_direction_to_the_left,
      get_direction_to_the_right, NORTH, SOUTH, EAST, WEST,
      MAX_VISIBILITY_DEPTH] <;>
    omega

/-- The projected point itself, MAX_VISIBILITY_DEPTH cells out, lies outside
the visibility cone of every facing direction. -/
theorem spawn_sp_not_in_cone (pos : GPoint) (d direction : Int)
    (hdir : direction = 0 ∨ direction = 1 ∨ direction = 2 ∨ direction = 3) :
    ¬ in_visibility_cone pos d
      (get_cell_farther_away pos direction MAX_VISIBILITY_DEPTH) := by
  have h := (spawn_candidates_not_in_cone pos d direction 0 hdir (by decide)).1
  rwa [Nat.cast_zero, farther_zero] at h

theorem rotate_direction_valid (d : Int)
    (h : d = 0 ∨ d = 1 ∨ d = 2 ∨ d = 3) :
    rotate_direction d = 0 ∨ rotate_direction d = 1 ∨
    rotate_direction d = 2 ∨ rotate_direction d = 3 := by
  rcases h with h | h | h | h <;> subst h <;> decide

/-- Every point returned by the do-while is one of the two lateral
candidates at distance j and is occupiable. -/
theorem spawn_check_lateral_found (s : GameState) (sp : GPoint)
    (direction : Int) (j : Nat) :
    ∀ fuel cl cr r p,
      spawn_check_lateral s sp direction j cl cr r fuel = SpawnRes.found p →
      occupiable s p = true ∧
      (p = get_cell_farther_away sp (get_direction_to_the_left direction)
             (j : Int) ∨
       p = get_cell_farther_away sp (get_direction_to_the_right direction)
             (j : Int)) := by
  intro fuel
  induction fuel with
  | zero =>
    intro cl cr r p h
    exact SpawnRes.noConfusion h
  | succ n ih =>
    intro cl cr r p h
    simp only [spawn_check_lateral] at h
    split_ifs at h
    all_goals
      first
        | exact SpawnRes.noConfusion h
        | (rw [SpawnRes.found.injEq] at h
           subst h
           exact ⟨by assumption, Or.inl rfl⟩)
        | (rw [SpawnRes.found.injEq] at h
           subst h
           exact ⟨by assumption, Or.inr rfl⟩)
        | exact ih _ _ _ _ h

/-- Every point returned by the j-loop is an occupiable lateral candidate at
some distance j in the scanned list. -/
theorem spawn_scan_depths_found (s : GameState) (sp : GPoint)
    (direction : Int) :
    ∀ js r fuel p,
      spawn_scan_depths s sp direction js r fuel = SpawnRes.found p →
      occupiable s p = true ∧
      ∃ j, j ∈ js ∧
        (p = get_cell_farther_away sp (get_direction_to_the_left direction)
               (j : Int) ∨
         p = get_cell_farther_away sp (get_direction_to_the_right direction)
               (j : Int)) := by
  intro js
  induction js with
  | nil =>
    intro r fuel p h
    exact SpawnRes.noConfusion h
  | cons j rest ih =>
    intro r fuel p h
    simp only [spawn_scan_depths] at h
    cases hcl : spawn_check_lateral s sp direction j false false r fuel with
    | timeout =>
      rw [hcl] at h
      exact SpawnRes.noConfusion h
    | found q =>
      rw [hcl] at h
      rw [SpawnRes.found.injEq] at h
      subst h
      have hq := spawn_check_lateral_found s sp direction j fuel false false r q hcl
      exact ⟨hq.1, ⟨j, by simp, hq.2⟩⟩
    | nofind r1 =>
      rw [hcl] at h
      obtain ⟨hocc, jj, hmem, hor⟩ := ih r1 fuel p h
      exact ⟨hocc, ⟨jj, by simp [hmem], hor⟩⟩

/-- Every point returned by the rotating direction scan is either the
sentinel or an occupiable cell outside the visibility cone of every facing
direction. -/
theorem spawn_scan_directions_found (s : GameState) :
    ∀ count direction r fuel p,
      (direction = 0 ∨ direction = 1 ∨ direction = 2 ∨ direction = 3) →
      spawn_scan_directions s count direction r fuel = SpawnRes.found p →
      p = (⟨-1, -1⟩ : GPoint) ∨
      (occupiable s p = true ∧
       ∀ d : Int, ¬ in_visibility_cone s.player.position d p) := by
  intro count
  induction count with
  | zero =>
    intro direction r fuel p hdir h
    simp only [spawn_scan_directions] at h
    rw [SpawnRes.found.injEq] at h
    exact Or.inl h.symm
  | succ n ih =>
    intro direction r fuel p hdir h
    simp only [spawn_scan_directions] at h
    split_ifs at h with h1 h2
    · exact ih _ r fuel p (rotate_direction_valid direction hdir) h
    · rw [SpawnRes.found.injEq] at h
      subst h
      exact Or.inr ⟨h2, fun d => spawn_sp_not_in_cone s.player.position d direction hdir⟩
    · cases hsd : spawn_scan_depths s (get_cell_farther_away s.player.position
          direction MAX_VISIBILITY_DEPTH) direction [1, 2, 3, 4] r fuel with
      | timeout =>
        rw [hsd] at h
        exact SpawnRes.noConfusion h
      | found q =>
        rw [hsd] at h
        rw [SpawnRes.found.injEq] at h
        subst h
        obtain ⟨hocc, j, hmem, hor⟩ := spawn_scan_depths_found s _ direction
          [1, 2, 3, 4] r fuel q hsd
        have hj : j ≤ 4 := by
          simp only [List.mem_cons, List.not_mem_nil, or_false] at hmem
          omega
        refine Or.inr ⟨hocc, fun d => ?_⟩
        have hcand := spawn_candidates_not_in_cone s.player.position d
          direction j hdir hj
        rcases hor with hor | hor <;> rw [hor]
        · exact hcand.1
        · exact hcand.2
      | nofind r1 =>
        rw [hsd] at h
        exact ih _ r1 fuel p (rotate_direction_valid direction hdir) h

/-- C7: whenever get_npc_spawn_point returns (that is, the fuel was
sufficient), the result is either the sentinel (-1, -1) or an in-bounds
occupiable cell lying outside the player's visibility cone; and a spawn
attempt at the sentinel, as performed by the tick handler through
add_new_npc, leaves the state unchanged, so no NPC is created. -/
theorem c7_spawn_point_spec (s : GameState) (r : Rng) (fuel : Nat)
    (p : GPoint) (npc_type : Int) :
    (get_npc_spawn_point s r fuel = some p →
      p = (⟨-1, -1⟩ : GPoint) ∨
      (out_of_bounds p = false ∧ occupiable s p = true ∧
       ¬ in_visibility_cone s.player.position s.player.direction p)) ∧
    add_new_npc s npc_type ⟨-1, -1⟩ = s := by
  constructor
  · intro h
    unfold get_npc_spawn_point at h
    cases hscan : spawn_scan_directions s NUM_DIRECTIONS
        ((((randStep r).1 % NUM_DIRECTIONS : Nat) : Int)) (randStep r).2 fuel with
    | timeout => rw [hscan] at h; exact Option.noConfusion h
    | nofind r1 => rw [hscan] at h; exact Option.noConfusion h
    | found q =>
      rw [hscan] at h
      rw [Option.some.injEq] at h
      subst h
      have hdir : (((randStep r).1 % NUM_DIRECTIONS : Nat) : Int) = 0 ∨
          (((randStep r).1 % NUM_DIRECTIONS : Nat) : Int) = 1 ∨
          (((randStep r).1 % NUM_DIRECTIONS : Nat) : Int) = 2 ∨
          (((randStep r).1 % NUM_DIRECTIONS : Nat) : Int) = 3 := by
        have hv : (randStep r).1 % NUM_DIRECTIONS < 4 := Nat.mod_lt _ (by decide)
        omega
      rcases spawn_scan_directions_found s NUM_DIRECTIONS _ (randStep r).2
          fuel q hdir hscan with hq | ⟨hocc, hcone⟩
      · exact Or.inl hq
      · exact Or.inr ⟨occupiable_inbounds s q hocc, hocc, hcone s.player.direction⟩
  · cases hocc : occupiable s ⟨-1, -1⟩ with
    | false => simp [add_new_npc, hocc]
    | true =>
      have := occupiable_inbounds s ⟨-1, -1⟩ hocc
      exact absurd this (by decide)

/-- C7 witness: on an all-empty grid with the player at (7, 7) facing SOUTH,
the search returns the cell 6 steps north, which is in bounds, occupiable,
and outside the visibility cone. -/
theorem c7_witness :
    get_npc_spawn_point sample_state (fun _ => 0) 5 = some ⟨7, 1⟩ ∧
    ((⟨7, 1⟩ : GPoint) = (⟨-1, -1⟩ : GPoint) ∨
     (out_of_bounds ⟨7, 1⟩ = false ∧ occupiable sample_state ⟨7, 1⟩ = true ∧
      ¬ in_visibility_cone sample_state.player.position
          sample_state.player.direction ⟨7, 1⟩)) :=
  ⟨by decide,
   (c7_spawn_point_spec sample_state (fun _ => 0) 5 ⟨7, 1⟩ 0).1 (by decide)⟩

/-! ## Mission generation: init_mission_location (claim C3) -/

/-- One step of the dungeon builder, mirroring the switch in
init_mission_location's carving loop: move one cell in the heading unless
that would leave the grid, in which case stay put. -/
def builder_step (p : GPoint) (dir : Int) : GPoint :=
  if dir = NORTH then (if p.y > 0 then ⟨p.x, p.y - 1⟩ else p)
  else if dir = SOUTH then (if p.y < LOCATION_HEIGHT - 1 then ⟨p.x, p.y + 1⟩ else p)
  else if dir = EAST then (if p.x < LOCATION_WIDTH - 1 then ⟨p.x + 1, p.y⟩ else p)
  else (if p.x > 0 then ⟨p.x - 1, p.y⟩ else p)

/-- The carving loop of init_mission_location: clear the current cell, take
one clamped step, and with probability 1/4 redraw the heading; the final
cell (the end point) is also cleared. The loop need not terminate for an
adversarial rand stream, hence the fuel. -/
def carve_path (g : Grid) (pos : GPoint) (dir : Int) (endp : GPoint)
    (r : Rng) (fuel : Nat) : Option (Grid × Rng) :=
  match fuel with
  | 0 => none
  | fuel + 1 =>
    if pos = endp then some (set_cell_type g pos EMPTY, r)
    else
      let g1 := set_cell_type g pos EMPTY
      let pos1 := builder_step pos dir
      let v := (randStep r).1
      let r1 := (randStep r).2
      if v % NUM_DIRECTIONS = 0 then
        carve_path g1 pos1 (((randStep r1).1 % NUM_DIRECTIONS : Nat) : Int)
          endp (randStep r1).2 fuel
      else
        carve_path g1 pos1 dir endp r1 fuel

/-- The RANDOM_POINT macro on the entrance edge: a random point on the wall
matching the entrance direction. -/
def entrance_edge_point (ed a : Int) : GPoint :=
  if ed = NORTH then ⟨a, 0⟩
  else if ed = SOUTH then ⟨a, LOCATION_HEIGHT - 1⟩
  else if ed = EAST then ⟨LOCATION_WIDTH - 1, a⟩
  else ⟨0, a⟩

/-- The RANDOM_POINT macro on the opposite edge. -/
def opposite_edge_point (ed b : Int) : GPoint :=
  if ed = NORTH then ⟨b, LOCATION_HEIGHT - 1⟩
  else if ed = SOUTH then ⟨b, 0⟩
  else if ed = EAST then ⟨0, b⟩
  else ⟨LOCATION_WIDTH - 1, b⟩

/-- The final block of init_mission_location: record the carved grid,
entrance direction and starting point, then place the mission-type-specific
objective at the end point. -/
def place_objective (s : GameState) (g2 : Grid) (ed : Int)
    (start endp : GPoint) : GameState :=
  let s2 : GameState := { s with mission := { s.mission with
      cells := g2
      entrance_direction := ed
      starting_point := start } }
  if s.mission.type = ASSASSINATE then
    add_new_npc s2 ALIEN_OFFICER endp
  else if s.mission.type = EXPROPRIATE then
    { s2 with mission := { s2.mission with
        cells := set_cell_type g2 endp ITEM } }
  else if s.mission.type = EXTRICATE then
    { s2 with mission := { s2.mission with
        cells := set_cell_type g2 endp HUMAN } }
  else
    s2

/-- init_mission_location: reset every cell to full HP, draw the entrance
edge and the two edge points, carve a path from the entrance to the opposite
edge point, then place the mission-type-specific objective there. The end
point (objective anchor), a local in the C code, is returned alongside the
state so properties can refer to it. -/
def init_mission_location (s : GameState) (r : Rng) (fuel : Nat) :
    Option (GameState × GPoint) :=
  let ed : Int := (((randStep r).1 % NUM_DIRECTIONS : Nat) : Int)
  let r1 := (randStep r).2
  let a : Int := (((randStep r1).1 % 15 : Nat) : Int)
  let r2 := (randStep r1).2
  let b : Int := (((randStep r2).1 % 15 : Nat) : Int)
  let r3 := (randStep r2).2
  let start := entrance_edge_point ed a
  let endp := opposite_edge_point ed b
  match carve_path (fun _ => DEFAULT_CELL_HP) start
      (get_opposite_direction ed) endp r3 fuel with
  | none => none
  | some (g2, _) => some (place_objective s g2 ed start endp, endp)

/-- Reachability through cells satisfying P by 4-neighbor steps (stationary
stutter steps allowed, as the clamped builder can stand still). -/
inductive Reachable (P : GPoint → Prop) : GPoint → GPoint → Prop where
  | refl (a : GPoint) (h : P a) : Reachable P a a
  | head (a b c : GPoint) (h : P a) (hstep : a = b ∨ touching a b = true)
      (rest : Reachable P b c) : Reachable P a c

theorem Reachable.last {P : GPoint → Prop} :
    ∀ {a b : GPoint}, Reachable P a b → P b := by
  intro a b h
  induction h with
  | refl a h => exact h
  | head a b c h hstep rest ih => exact ih

theorem Reachable.mono {P Q : GPoint → Prop} (hPQ : ∀ c, P c → Q c) :
    ∀ {a b : GPoint}, Reachable P a b → Reachable Q a b := by
  intro a b h
  induction h with
  | refl a h => exact Reachable.refl a (hPQ a h)
  | head a b c h hstep rest ih => exact Reachable.head a b c (hPQ a h) hstep ih

theorem builder_step_adjacent (p : GPoint) (dir : Int) :
    p = builder_step p dir ∨ touching p (builder_step p dir) = true := by
  unfold builder_step
  split_ifs <;>
    first
      | exact Or.inl rfl
      | (refine Or.inr ?_
         simp only [touching, Bool.or_eq_true, Bool.and_eq_true,
           decide_eq_true_eq]
         omega)

/-- Whenever the carving loop terminates, the final grid contains a path of
EMPTY cells from the builder's starting position to the end point, every
cell is either untouched or EMPTY, and the end point is EMPTY. -/
theorem carve_path_spec :
    ∀ fuel (g : Grid) (pos : GPoint) (dir : Int) (endp : GPoint) (r : Rng)
      (g2 : Grid) (r2 : Rng),
      carve_path g pos dir endp r fuel = some (g2, r2) →
      Reachable (fun c => g2 c = EMPTY) pos endp ∧
      (∀ c, g2 c = g c ∨ g2 c = EMPTY) ∧
      g2 endp = EMPTY := by
  intro fuel
  induction fuel with
  | zero =>
    intro g pos dir endp r g2 r2 h
    exact Option.noConfusion h
  | succ n ih =>
    intro g pos dir endp r g2 r2 h
    simp only [carve_path] at h
    split_ifs at h with heq hcoin
    · rw [Option.some.injEq, Prod.mk.injEq] at h
      obtain ⟨hg, hr⟩ := h
      subst hg
      subst heq
      refine ⟨Reachable.refl pos (by simp [set_cell_type]), ?_, by simp [set_cell_type]⟩
      intro c
      by_cases hc : c = pos
      · subst hc
        exact Or.inr (by simp [set_cell_type])
      · exact Or.inl (by simp [set_cell_type, hc])
    · obtain ⟨hreach, hkeep, hend⟩ := ih _ _ _ _ _ _ _ h
      refine ⟨?_, ?_, hend⟩
      · refine Reachable.head pos (builder_step pos dir) endp ?_
          (builder_step_adjacent pos dir) hreach
        rcases hkeep pos with hk | hk
        · rw [hk]
          simp [set_cell_type]
        · exact hk
      · intro c
        rcases hkeep c with hk | hk
        · by_cases hc : c = pos
          · subst hc
            rw [hk]
            exact Or.inr (by simp [set_cell_type])
          · rw [hk]
            exact Or.inl (by simp [set_cell_type, hc])
        · exact Or.inr hk
    · obtain ⟨hreach, hkeep, hend⟩ := ih _ _ _ _ _ _ _ h
      refine ⟨?_, ?_, hend⟩
      · refine Reachable.head pos (builder_step pos dir) endp ?_
          (builder_step_adjacent pos dir) hreach
        rcases hkeep pos with hk | hk
        · rw [hk]
          simp [set_cell_type]
        · exact hk
      · intro c
        rcases hkeep c with hk | hk
        · by_cases hc : c = pos
          · subst hc
            rw [hk]
            exact Or.inr (by simp [set_cell_type])
          · rw [hk]
            exact Or.inl (by simp [set_cell_type, hc])
        · exact Or.inr hk

theorem add_new_npc_preserves (s : GameState) (t : Int) (p : GPoint) :
    (add_new_npc s t p).mission.cells = s.mission.cells ∧
    (add_new_npc s t p).mission.starting_point = s.mission.starting_point := by
  unfold add_new_npc
  split_ifs <;> exact ⟨rfl, rfl⟩

/-- Placing the objective preserves carved connectivity up to turning the
anchor cell into a non-solid marker, and keeps every other cell as the
builder left it. -/
theorem place_objective_spec (s : GameState) (g2 : Grid) (ed : Int)
    (start endp : GPoint)
    (hreach : Reachable (fun c => g2 c = EMPTY) start endp)
    (hkeep : ∀ c, g2 c = DEFAULT_CELL_HP ∨ g2 c = EMPTY) :
    Reachable (fun c => (place_objective s g2 ed start endp).mission.cells c ≤ EMPTY)
      (place_objective s g2 ed start endp).mission.starting_point endp ∧
    (∀ c, (place_objective s g2 ed start endp).mission.cells c = DEFAULT_CELL_HP ∨
      (place_objective s g2 ed start endp).mission.cells c ≤ EMPTY) := by
  unfold place_objective
  split_ifs with ht1 ht2 ht3
  · rw [(add_new_npc_preserves _ ALIEN_OFFICER _).1,
       (add_new_npc_preserves _ ALIEN_OFFICER _).2]
    refine ⟨Reachable.mono (fun c hc0 => le_of_eq hc0) hreach, ?_⟩
    intro c
    rcases hkeep c with hk | hk
    · exact Or.inl hk
    · exact Or.inr (le_of_eq hk)
  · refine ⟨Reachable.mono (fun c hc0 => ?_) hreach, ?_⟩
    · by_cases hce : c = endp
      · subst hce
        simp [set_cell_type, ITEM, EMPTY]
      · simp only [set_cell_type, if_neg hce]
        exact le_of_eq hc0
    · intro c
      by_cases hce : c = endp
      · subst hce
        exact Or.inr (by simp [set_cell_type, ITEM, EMPTY])
      · simp only [set_cell_type, if_neg hce]
        rcases hkeep c with hk | hk
        · exact Or.inl hk
        · exact Or.inr (le_of_eq hk)
  · refine ⟨Reachable.mono (fun c hc0 => ?_) hreach, ?_⟩
    · by_cases hce : c = endp
      · subst hce
        simp [set_cell_type, HUMAN, EMPTY]
      · simp only [set_cell_type, if_neg hce]
        exact le_of_eq hc0
    · intro c
      by_cases hce : c = endp
      · subst hce
        exact Or.inr (by simp [set_cell_type, HUMAN, EMPTY])
      · simp only [set_cell_type, if_neg hce]
        rcases hkeep c with hk | hk
        · exact Or.inl hk
        · exact Or.inr (le_of_eq hk)
  · refine ⟨Reachable.mono (fun c hc0 => le_of_eq hc0) hreach, ?_⟩
    intro c
    rcases hkeep c with hk | hk
    · exact Or.inl hk
    · exact Or.inr (le_of_eq hk)

/-- C3 (amended): whenever init_mission_location returns, the resulting grid
contains a path of non-solid cells (code at most EMPTY, the spec's own
flood-fill criterion), connected by 4-neighbor steps, from the mission
entrance to the objective anchor on the opposite edge; every cell on it is
EMPTY except that for steal and rescue missions the anchor itself holds the
ITEM or HUMAN marker; and every cell not cleared by the builder remains
solid at full HP (DEFAULT_CELL_HP). -/
theorem c3_mission_path (s : GameState) (r : Rng) (fuel : Nat)
    (s2 : GameState) (endp : GPoint)
    (h : init_mission_location s r fuel = some (s2, endp)) :
    Reachable (fun c => s2.mission.cells c ≤ EMPTY)
      s2.mission.starting_point endp ∧
    (∀ c, s2.mission.cells c = DEFAULT_CELL_HP ∨ s2.mission.cells c ≤ EMPTY) := by
  unfold init_mission_location at h
  simp only at h
  cases hc : carve_path (fun _ => DEFAULT_CELL_HP)
      (entrance_edge_point (((randStep r).1 % NUM_DIRECTIONS : Nat) : Int)
        (((randStep (randStep r).2).1 % 15 : Nat) : Int))
      (get_opposite_direction (((randStep r).1 % NUM_DIRECTIONS : Nat) : Int))
      (opposite_edge_point (((randStep r).1 % NUM_DIRECTIONS : Nat) : Int)
        (((randStep (randStep (randStep r).2).2).1 % 15 : Nat) : Int))
      (randStep (randStep (randStep r).2).2).2 fuel with
  | none =>
    rw [hc] at h
    exact Option.noConfusion h
  | some gr =>
    rw [hc] at h
    obtain ⟨g2, r4⟩ := gr
    obtain ⟨hreach, hkeep, hend⟩ := carve_path_spec fuel _ _ _ _ _ g2 r4 hc
    rw [Option.some.injEq, Prod.mk.injEq] at h
    obtain ⟨hs2, hendp⟩ := h
    subst hs2
    subst hendp
    exact place_objective_spec s g2 _ _ _ hreach (fun c => hkeep c)

/-- A rand stream for a straight north-to-south carve: entrance NORTH at
(0,0), anchor (0,14), and no turn draws. -/
def c3_rng : Rng := fun n => if n < 3 then 0 else 1

/-- An EXPROPRIATE (steal) mission request. -/
def c3_s0 : GameState :=
  { sample_state with mission := { sample_mission with type := EXPROPRIATE } }

def c3_run : Option (GameState × GPoint) :=
  init_mission_location c3_s0 c3_rng 20

/-- C3 counterexample: in an EXPROPRIATE mission the objective anchor holds
the ITEM marker after generation, so no path of EMPTY cells (as the claim
states it) can reach the anchor: on this concrete run the generation
succeeds yet EMPTY-cell reachability from the entrance to the anchor is
refuted. -/
theorem c3_counterexample :
    c3_run.elim False (fun q =>
      ¬ Reachable (fun c => q.1.mission.cells c = EMPTY)
          q.1.mission.starting_point q.2) := by
  have hsome : c3_run.isSome = true := by decide
  obtain ⟨q, hq⟩ := Option.isSome_iff_exists.mp hsome
  have hmap : c3_run.map (fun q => q.1.mission.cells q.2) = some ITEM := by
    decide
  rw [hq]
  simp only [Option.elim]
  intro hreach
  have hlast := Reachable.last hreach
  rw [hq] at hmap
  simp only [Option.map_some'] at hmap
  rw [hlast] at hmap
  exact absurd hmap (by decide)

/-- An EXTRICATE (rescue) mission request for the witness run. -/
def c3w_s0 : GameState :=
  { sample_state with mission := { sample_mission with type := EXTRICATE } }

def c3w_pair : GameState × GPoint :=
  (init_mission_location c3w_s0 c3_rng 20).get (by decide)

/-- C3 witness: the amended connectivity theorem applied to a concrete
successful generation run. -/
theorem c3_witness :
    init_mission_location c3w_s0 c3_rng 20 = some c3w_pair ∧
    (Reachable (fun c => c3w_pair.1.mission.cells c ≤ EMPTY)
       c3w_pair.1.mission.starting_point c3w_pair.2 ∧
     ∀ c, c3w_pair.1.mission.cells c = DEFAULT_CELL_HP ∨
       c3w_pair.1.mission.cells c ≤ EMPTY) :=
  have hs : (init_mission_location c3w_s0 c3_rng 20).isSome = true := by decide
  ⟨(Option.some_get hs).symm,
   c3_mission_path c3w_s0 c3_rng 20 c3w_pair.1 c3w_pair.2
     (Option.some_get hs).symm⟩

end SpaceMerc
